import Mathlib

/-!
Shallow embedding of the device registry and liveness lifecycle of the
`camper` repository.

The registry proper lives in `src/main_controller/device_registry.py`
(class `DeviceRegistry`), with its validation helpers in
`src/shared/utils.py` and its configuration constants in
`src/shared/constants.py`.  The command-dispatch route is
`control_device` in `src/main_controller/api/control_routes.py`.

The Python registry is an insertion-ordered `dict` mapping a device id
to a record dict; we embed it as an association list on `String` keys,
with lookups returning the first matching entry (Python dicts have
unique keys, which the invariant theorems below establish for every
reachable state).  Timestamps (`datetime.now()`) are embedded as an
explicit integer parameter `now` measured in seconds, and time
differences `now - last_seen > timedelta(seconds = k)` become integer
comparisons `now - last_seen > k`.
-/

namespace Camper

/-! ### Constants (`src/shared/constants.py`) -/

def DEVICE_TYPE_REAR_CAMERA : String := "rear-camera"

/-- `DEVICE_TYPE_LIMITS = {DEVICE_TYPE_REAR_CAMERA: 1}`. -/
def DEVICE_TYPE_LIMITS : List (String × Nat) := [(DEVICE_TYPE_REAR_CAMERA, 1)]

def DEVICE_INACTIVE_THRESHOLD : Int := 120

def DEVICE_REMOVAL_THRESHOLD : Int := 300

def DEVICE_STATUS_ACTIVE : String := "active"

def DEVICE_STATUS_INACTIVE : String := "inactive"

/-! ### Validation helpers (`src/shared/utils.py`) -/

/-- `validate_device_type`: membership in the `DEVICE_TYPE_LIMITS` dict. -/
def validate_device_type (device_type : String) : Bool :=
  (DEVICE_TYPE_LIMITS.lookup device_type).isSome

/-- Splitting a character list on the dot character, embedding Python's
`ip_address.split('.')` (which yields `['']` on the empty string). -/
def splitOnDot : List Char → List (List Char)
  | [] => [[]]
  | c :: cs =>
    if c = '.' then [] :: splitOnDot cs
    else
      match splitOnDot cs with
      | [] => [[c]]
      | g :: gs => (c :: g) :: gs

/-- Decimal digit accumulation for `parseDec`. -/
def decValAux : List Char → Nat → Option Nat
  | [], acc => some acc
  | c :: cs, acc =>
    if c.isDigit then decValAux cs (acc * 10 + (c.toNat - 48)) else none

/-- Embeds Python's `int(part)` on one dotted-quad component: an optional
sign followed by at least one decimal digit; anything else raises
`ValueError` (embedded as `none`). -/
def parseDec : List Char → Option Int
  | [] => none
  | c :: cs =>
    if c = '-' then
      if cs = [] then none else (decValAux cs 0).map (fun n => -(n : Int))
    else if c = '+' then
      if cs = [] then none else (decValAux cs 0).map (fun n => (n : Int))
    else (decValAux (c :: cs) 0).map (fun n => (n : Int))

/-- `validate_ip_address`: four dot-separated components, each parsing as
an integer in `0..255`. -/
def validate_ip_address (ip_address : String) : Bool :=
  let parts := splitOnDot ip_address.data
  parts.length == 4 &&
    parts.all (fun part =>
      match parseDec part with
      | some v => decide (0 ≤ v) && decide (v ≤ 255)
      | none => false)

/-- `validate_port`: `isinstance(port, int) and 1 <= port <= 65535`
(the embedding's `port : Int` makes the `isinstance` test vacuous). -/
def validate_port (port : Int) : Bool :=
  decide (1 ≤ port) && decide (port ≤ 65535)

/-- `is_device_inactive`: `datetime.now() - last_seen >
timedelta(seconds=DEVICE_INACTIVE_THRESHOLD)`. -/
def is_device_inactive (last_seen : Int) (now : Int) : Bool :=
  decide (now - last_seen > DEVICE_INACTIVE_THRESHOLD)

/-- `should_remove_device`: `datetime.now() - last_seen >
timedelta(seconds=DEVICE_REMOVAL_THRESHOLD)`. -/
def should_remove_device (last_seen : Int) (now : Int) : Bool :=
  decide (now - last_seen > DEVICE_REMOVAL_THRESHOLD)

/-! ### Device records and the registry state
(`src/main_controller/device_registry.py`) -/

/-- One value of the `self._devices` dict: the record dict built in
`DeviceRegistry.register_device`. -/
structure DeviceRec where
  device_type : String
  ip_address : String
  port : Int
  status : String
  created_at : Int
  last_seen : Int
  failure_count : Int
deriving DecidableEq, Repr

/-- The `self._devices` dict, as an insertion-ordered association list. -/
abbrev RegistryState := List (String × DeviceRec)

/-- The exceptions `register_device` can raise, after the HTTP route's
classification in `src/main_controller/api/device_routes.py`:
the first four are `DeviceRegistrationError` / `InvalidDeviceTypeError`
(mapped to a 400 `validation_error`), the last is
`DeviceTypeLimitExceededError` (mapped to a 409 conflict). -/
inductive RegError where
  | invalidDeviceId
  | invalidDeviceType
  | invalidIpAddress
  | invalidPort
  | deviceTypeLimitExceeded
deriving DecidableEq, Repr

/-- The route in `device_routes.py` maps `InvalidDeviceTypeError` and
`DeviceRegistrationError` to `error_type: validation_error` (HTTP 400)
and `DeviceTypeLimitExceededError` to HTTP 409. -/
def RegError.isValidationClass : RegError → Bool
  | .deviceTypeLimitExceeded => false
  | _ => true

/-- `DeviceRegistry._count_devices_by_type`. -/
def count_devices_by_type (s : RegistryState) (device_type : String) : Nat :=
  (s.filter (fun p => p.2.device_type == device_type)).length

/-- The capacity of a device type: `self._device_type_limits.get(device_type, 0)`. -/
def limitOf (device_type : String) : Nat :=
  (DEVICE_TYPE_LIMITS.lookup device_type).getD 0

/-- `DeviceRegistry._can_register_device_type`. -/
def can_register_device_type (s : RegistryState) (device_type : String) : Bool :=
  decide (count_devices_by_type s device_type < limitOf device_type)

/-- The heartbeat-update branch of `register_device` (lines 105-118 of
`device_registry.py`), applied entry-wise to the dict: the entry for
`device_id` gets `ip_address`, `port`, `last_seen`, `status` and
`failure_count` rewritten in place (and, notably, `device_type` and
`created_at` untouched); every other entry is untouched. -/
def heartbeat_update (device_id ip_address : String) (port now : Int)
    (p : String × DeviceRec) : String × DeviceRec :=
  if p.1 = device_id then
    (p.1, { p.2 with
      ip_address := ip_address
      port := port
      last_seen := now
      status := DEVICE_STATUS_ACTIVE
      failure_count := 0 })
  else p

/-- `DeviceRegistry.register_device`, the registration/heartbeat
processor.  Input checks mirror lines 61-71 of `device_registry.py`; a
new id is appended to the dict (insertion order), an existing id takes
the heartbeat-update branch.  A raised exception is embedded as
`Except.error`, in which case the registry dict was not modified. -/
def register_device (s : RegistryState) (device_id device_type ip_address : String)
    (port : Int) (now : Int) : Except RegError RegistryState :=
  if device_id = "" then .error .invalidDeviceId
  else if ¬ validate_device_type device_type then .error .invalidDeviceType
  else if ¬ validate_ip_address ip_address then .error .invalidIpAddress
  else if ¬ validate_port port then .error .invalidPort
  else
    match s.lookup device_id with
    | none =>
      if can_register_device_type s device_type then
        .ok (s ++ [(device_id,
          { device_type := device_type
            ip_address := ip_address
            port := port
            status := DEVICE_STATUS_ACTIVE
            created_at := now
            last_seen := now
            failure_count := 0 })])
      else .error .deviceTypeLimitExceeded
    | some _ =>
      .ok (s.map (heartbeat_update device_id ip_address port now))

/-- `DeviceRegistry.remove_device`: `self._devices.pop(device_id)` when
present, returning whether a record was removed. -/
def remove_device (s : RegistryState) (device_id : String) : Bool × RegistryState :=
  if (s.lookup device_id).isSome then
    (true, s.eraseP (fun p => p.1 == device_id))
  else (false, s)

/-- The first-pass body of `cleanup_inactive_devices` applied
entry-wise: an entry past the removal threshold is left as-is (it is
popped by the second pass), an entry past only the inactivity threshold
has its `status` set to `DEVICE_STATUS_INACTIVE` (`elif` branch), and
anything fresher is untouched. -/
def mark_inactive (now : Int) (p : String × DeviceRec) : String × DeviceRec :=
  if should_remove_device p.2.last_seen now then p
  else if is_device_inactive p.2.last_seen now then
    (p.1, { p.2 with status := DEVICE_STATUS_INACTIVE })
  else p

/-- `DeviceRegistry.cleanup_inactive_devices`: the first pass collects
ids past the removal threshold and marks the merely-inactive ones
(`elif`), the second pass pops the collected ids; the list of removed
ids is returned. -/
def cleanup_inactive_devices (s : RegistryState) (now : Int) :
    List String × RegistryState :=
  let removed := (s.filter (fun p => should_remove_device p.2.last_seen now)).map (·.1)
  let marked := s.map (mark_inactive now)
  (removed, marked.filter (fun p => !should_remove_device p.2.last_seen now))

/-- The per-entry mutation of `increment_failure_count`: the entry for
`device_id` has its `failure_count` bumped by one, everything else is
untouched. -/
def failure_update (device_id : String) (p : String × DeviceRec) :
    String × DeviceRec :=
  if p.1 = device_id then
    (p.1, { p.2 with failure_count := p.2.failure_count + 1 })
  else p

/-- `DeviceRegistry.increment_failure_count`: `-1` when the id is
unknown, otherwise the record's `failure_count` is incremented in place
and its new value returned. -/
def increment_failure_count (s : RegistryState) (device_id : String) :
    Int × RegistryState :=
  match s.lookup device_id with
  | none => (-1, s)
  | some r =>
    (r.failure_count + 1, s.map (failure_update device_id))

/-! ### Command dispatch (`src/main_controller/api/control_routes.py`) -/

/-- One outbound HTTP POST issued by `make_device_request` on behalf of
the dispatcher: target address, port and command path. -/
structure TransportCall where
  ip_address : String
  port : Int
  path : String
deriving DecidableEq, Repr

/-- The outcome of the `control_device` route, one constructor per exit
path (404 unknown id, 400 not active, 400 unknown command, 200 success,
400 device-reported error, 503 communication failure). -/
inductive DispatchResult where
  | notFound
  | notActive (device_status : String)
  | unsupportedCommand
  | success
  | deviceError (code : Int)
  | communicationError (failure_count : Int)
deriving DecidableEq, Repr

/-- `_build_command_path`: the static device-type → command → path
table of `control_routes.py`. -/
def build_command_path (device_type command : String) : Option String :=
  if device_type = DEVICE_TYPE_REAR_CAMERA then
    if command = "up" then some "/api/v1/rear-camera/up"
    else if command = "down" then some "/api/v1/rear-camera/down"
    else if command = "status" then some "/api/v1/rear-camera/status"
    else none
  else none

/-- The `control_device` route: looks the device up, rejects if absent
or not `active`, resolves the command path, and only then issues the
transport call.  The external device is embedded as an oracle
`transport`: `some code` is an HTTP response with that status code,
`none` a raised `DeviceCommunicationError`.  The result carries the
dispatch outcome, the list of transport calls actually issued, and the
resulting registry state (mutated only by the failure-count bumps of
the two error paths). -/
def control_device (s : RegistryState) (device_id command : String)
    (transport : TransportCall → Option Int) :
    DispatchResult × List TransportCall × RegistryState :=
  match s.lookup device_id with
  | none => (.notFound, [], s)
  | some device =>
    if device.status ≠ DEVICE_STATUS_ACTIVE then (.notActive device.status, [], s)
    else
      match build_command_path device.device_type command with
      | none => (.unsupportedCommand, [], s)
      | some path =>
        let call : TransportCall :=
          { ip_address := device.ip_address, port := device.port, path := path }
        match transport call with
        | none =>
          let res := increment_failure_count s device_id
          (.communicationError res.1, [call], res.2)
        | some code =>
          if code = 200 then (.success, [call], s)
          else (.deviceError code, [call], (increment_failure_count s device_id).2)

/-! ### Operation sequences over the registry -/

/-- One mutating registry operation, as reachable through the HTTP API:
`PUT /device/{id}` (register/heartbeat), `DELETE /device/{id}` and
`POST /cleanup`. -/
inductive RegOp where
  | register (device_id device_type ip_address : String) (port : Int) (now : Int)
  | remove (device_id : String)
  | cleanup (now : Int)

/-- Apply one operation; a raised registration exception leaves the
dict untouched. -/
def applyOp (s : RegistryState) : RegOp → RegistryState
  | .register device_id device_type ip_address port now =>
    match register_device s device_id device_type ip_address port now with
    | .ok s' => s'
    | .error _ => s
  | .remove device_id => (remove_device s device_id).2
  | .cleanup now => (cleanup_inactive_devices s now).2

/-- Run a sequence of operations from the empty registry
(`self._devices = {}` in `DeviceRegistry.__init__`). -/
def runOps (ops : List RegOp) : RegistryState :=
  ops.foldl applyOp []

/-! ### Association-list lemmas

The Python registry is a `dict`; these lemmas relate the embedded
operations (entry-wise `map`, `filter`, `eraseP`) to `List.lookup`,
the embedding of `dict` access. -/

/-- `List.lookup` on a cons cell, with the `BEq` test replaced by a
propositional `if`. -/
theorem lookup_cons_eq (a id : String) (b : DeviceRec) (tl : RegistryState) :
    ((a, b) :: tl).lookup id = if id = a then some b else tl.lookup id := by
  rw [List.lookup_cons]
  by_cases h : id = a
  · subst h; simp
  · have hab : (id == a) = false := beq_eq_false_iff_ne.mpr h
    rw [hab, if_neg h]

theorem lookup_eq_none_of_not_mem {s : RegistryState} {id : String}
    (h : id ∉ s.map Prod.fst) : s.lookup id = none := by
  induction s with
  | nil => rfl
  | cons p tl ih =>
    rcases p with ⟨a, b⟩
    simp only [List.map_cons, List.mem_cons, not_or] at h
    rw [lookup_cons_eq, if_neg h.1]
    exact ih h.2

theorem not_mem_of_lookup_eq_none {s : RegistryState} {id : String}
    (h : s.lookup id = none) : id ∉ s.map Prod.fst := by
  induction s with
  | nil => simp
  | cons p tl ih =>
    rcases p with ⟨a, b⟩
    rw [lookup_cons_eq] at h
    by_cases hab : id = a
    · rw [if_pos hab] at h; exact absurd h (by simp)
    · rw [if_neg hab] at h
      simp only [List.map_cons, List.mem_cons, not_or]
      exact ⟨hab, ih h⟩

theorem mem_of_lookup_eq_some {s : RegistryState} {id : String} {r : DeviceRec}
    (h : s.lookup id = some r) : (id, r) ∈ s := by
  induction s with
  | nil => exact absurd h (by simp)
  | cons p tl ih =>
    rcases p with ⟨a, b⟩
    rw [lookup_cons_eq] at h
    by_cases hab : id = a
    · rw [if_pos hab] at h
      have hb : b = r := by simpa using h
      subst hab; subst hb
      exact List.mem_cons_self _ _
    · rw [if_neg hab] at h
      exact List.mem_cons_of_mem _ (ih h)

/-- Mapping an entry-wise function that fixes every entry whose key is
`id` (and never rewrites keys) does not change what `id` looks up to. -/
theorem lookup_map_of_keep (f : String × DeviceRec → String × DeviceRec)
    (hfst : ∀ p, (f p).1 = p.1) (id : String)
    (hkeep : ∀ p, p.1 = id → f p = p) :
    ∀ s : RegistryState, (s.map f).lookup id = s.lookup id := by
  intro s
  induction s with
  | nil => rfl
  | cons p tl ih =>
    rcases p with ⟨a, b⟩
    by_cases ha : a = id
    · have hk := hkeep (a, b) ha
      simp only [List.map_cons, hk]
      rw [lookup_cons_eq, lookup_cons_eq, ih]
    · rcases hf : f (a, b) with ⟨a2, b2⟩
      have ha2 : a2 = a := by have := hfst (a, b); rw [hf] at this; exact this
      rw [ha2] at hf
      simp only [List.map_cons, hf]
      rw [lookup_cons_eq, lookup_cons_eq, ih]
      have hne : id ≠ a := fun hh => ha hh.symm
      rw [if_neg hne, if_neg hne]

/-- Mapping an entry-wise, key-preserving function rewrites what `id`
looks up to by exactly that function. -/
theorem lookup_map_on_key (f : String × DeviceRec → String × DeviceRec)
    (hfst : ∀ p, (f p).1 = p.1) (id : String) (r : DeviceRec) :
    ∀ s : RegistryState, s.lookup id = some r →
      (s.map f).lookup id = some (f (id, r)).2 := by
  intro s
  induction s with
  | nil => intro h; exact absurd h (by simp)
  | cons p tl ih =>
    intro h
    rcases p with ⟨a, b⟩
    rw [lookup_cons_eq] at h
    rcases hf : f (a, b) with ⟨a2, b2⟩
    have ha2 : a2 = a := by have := hfst (a, b); rw [hf] at this; exact this
    rw [ha2] at hf
    simp only [List.map_cons, hf]
    rw [lookup_cons_eq]
    by_cases hab : id = a
    · rw [if_pos hab] at h
      have hb : b = r := by simpa using h
      rw [if_pos hab]
      subst hab; subst hb
      rw [hf]
    · rw [if_neg hab] at h
      rw [if_neg hab]
      exact ih h

/-- A key-preserving entry-wise map leaves the key list unchanged. -/
theorem keys_map_of_fst (f : String × DeviceRec → String × DeviceRec)
    (hfst : ∀ p, (f p).1 = p.1) (s : RegistryState) :
    (s.map f).map Prod.fst = s.map Prod.fst := by
  induction s with
  | nil => rfl
  | cons p tl ih => simp only [List.map_cons, hfst, ih]

/-- An entry-wise map that never rewrites `device_type` preserves every
per-type count. -/
theorem count_map_of_type (f : String × DeviceRec → String × DeviceRec)
    (hty : ∀ p, (f p).2.device_type = p.2.device_type) (s : RegistryState)
    (t : String) :
    count_devices_by_type (s.map f) t = count_devices_by_type s t := by
  induction s with
  | nil => rfl
  | cons p tl ih =>
    simp only [count_devices_by_type, List.map_cons, List.filter_cons, hty] at *
    split <;> simp [ih]

theorem count_sublist {s' s : RegistryState} (h : List.Sublist s' s) (t : String) :
    count_devices_by_type s' t ≤ count_devices_by_type s t :=
  ((h.filter _).length_le)

theorem count_append_single (s : RegistryState) (id : String) (r : DeviceRec)
    (t : String) :
    count_devices_by_type (s ++ [(id, r)]) t =
      count_devices_by_type s t + (if r.device_type = t then 1 else 0) := by
  simp only [count_devices_by_type, List.filter_append, List.length_append]
  congr 1
  by_cases h : r.device_type = t
  · have hb : (r.device_type == t) = true := beq_iff_eq.mpr h
    simp [List.filter, hb, h]
  · have hb : (r.device_type == t) = false := beq_eq_false_iff_ne.mpr h
    simp [List.filter, hb, h]

/-! ### Shape lemmas for the entry-wise update functions -/

theorem heartbeat_update_fst (device_id ip : String) (port now : Int)
    (p : String × DeviceRec) :
    (heartbeat_update device_id ip port now p).1 = p.1 := by
  unfold heartbeat_update
  split <;> rfl

theorem heartbeat_update_type (device_id ip : String) (port now : Int)
    (p : String × DeviceRec) :
    (heartbeat_update device_id ip port now p).2.device_type = p.2.device_type := by
  unfold heartbeat_update
  split <;> rfl

theorem failure_update_fst (device_id : String) (p : String × DeviceRec) :
    (failure_update device_id p).1 = p.1 := by
  unfold failure_update
  split <;> rfl

theorem mark_inactive_fst (now : Int) (p : String × DeviceRec) :
    (mark_inactive now p).1 = p.1 := by
  unfold mark_inactive
  split
  · rfl
  · split <;> rfl

theorem mark_inactive_type (now : Int) (p : String × DeviceRec) :
    (mark_inactive now p).2.device_type = p.2.device_type := by
  unfold mark_inactive
  split
  · rfl
  · split <;> rfl

/-- A successful `register_device` either appended a brand-new record
(the id was unknown and its type below capacity) or rewrote the entries
via the heartbeat update. -/
theorem register_device_ok_cases {s s' : RegistryState} {id t ip : String}
    {p now : Int} (hE : register_device s id t ip p now = .ok s') :
    (s.lookup id = none ∧ can_register_device_type s t = true ∧
      s' = s ++ [(id,
        { device_type := t
          ip_address := ip
          port := p
          status := DEVICE_STATUS_ACTIVE
          created_at := now
          last_seen := now
          failure_count := 0 })]) ∨
    ((∃ r, s.lookup id = some r) ∧ s' = s.map (heartbeat_update id ip p now)) := by
  rw [register_device] at hE
  split at hE
  · cases hE
  · split at hE
    · cases hE
    · split at hE
      · cases hE
      · split at hE
        · cases hE
        · split at hE
          · split at hE
            · left
              refine ⟨by assumption, by assumption, ?_⟩
              have := hE
              injection this with h2
              exact h2.symm
            · cases hE
          · right
            refine ⟨⟨_, by assumption⟩, ?_⟩
            injection hE with h2
            exact h2.symm

/-! ### The registry invariant (claim C2) -/

/-- Every reachable registry dict has unique device ids (as a Python
dict trivially does) and respects every per-type capacity. -/
def RegInv (s : RegistryState) : Prop :=
  (s.map Prod.fst).Nodup ∧ ∀ t, count_devices_by_type s t ≤ limitOf t

theorem regInv_applyOp (s : RegistryState) (op : RegOp) (h : RegInv s) :
    RegInv (applyOp s op) := by
  cases op with
  | register id t ip p now =>
    show RegInv (match register_device s id t ip p now with
      | .ok s' => s' | .error _ => s)
    cases hE : register_device s id t ip p now with
    | error e => exact h
    | ok s' =>
      show RegInv s'
      rcases register_device_ok_cases hE with ⟨hnone, hcan, rfl⟩ | ⟨⟨r, hr⟩, rfl⟩
      · constructor
        · rw [List.map_append]
          simp only [List.map_cons, List.map_nil]
          exact h.1.append (List.nodup_singleton id)
            (List.disjoint_singleton.mpr (not_mem_of_lookup_eq_none hnone))
        · intro t'
          rw [count_append_single]
          by_cases hteq : t = t'
          · rw [if_pos hteq]
            subst hteq
            have hlt : count_devices_by_type s t < limitOf t := by
              simpa [can_register_device_type] using hcan
            omega
          · rw [if_neg hteq]
            simpa using h.2 t'
      · refine ⟨?_, ?_⟩
        · rw [keys_map_of_fst _ (heartbeat_update_fst id ip p now)]
          exact h.1
        · intro t'
          rw [count_map_of_type _ (heartbeat_update_type id ip p now)]
          exact h.2 t'
  | remove id =>
    show RegInv (remove_device s id).2
    rw [remove_device]
    split
    · refine ⟨?_, ?_⟩
      · exact List.Nodup.sublist ((List.eraseP_sublist s).map Prod.fst) h.1
      · intro t'
        exact le_trans (count_sublist (List.eraseP_sublist s) t') (h.2 t')
    · exact h
  | cleanup now =>
    show RegInv (cleanup_inactive_devices s now).2
    simp only [cleanup_inactive_devices]
    have hsub : List.Sublist
        ((s.map (mark_inactive now)).filter
          (fun p => !should_remove_device p.2.last_seen now))
        (s.map (mark_inactive now)) := List.filter_sublist _
    refine ⟨?_, ?_⟩
    · have h1 : ((s.map (mark_inactive now)).map Prod.fst).Nodup := by
        rw [keys_map_of_fst _ (mark_inactive_fst now)]
        exact h.1
      exact List.Nodup.sublist (hsub.map Prod.fst) h1
    · intro t'
      calc count_devices_by_type
            ((s.map (mark_inactive now)).filter
              (fun p => !should_remove_device p.2.last_seen now)) t'
          ≤ count_devices_by_type (s.map (mark_inactive now)) t' :=
            count_sublist hsub t'
        _ = count_devices_by_type s t' :=
            count_map_of_type _ (mark_inactive_type now) s t'
        _ ≤ limitOf t' := h.2 t'

theorem regInv_runOps (ops : List RegOp) : RegInv (runOps ops) := by
  have hstep : ∀ (l : List RegOp) (s : RegistryState), RegInv s →
      RegInv (l.foldl applyOp s) := by
    intro l
    induction l with
    | nil => intro s hs; exact hs
    | cons op tl ih => intro s hs; exact ih _ (regInv_applyOp s op hs)
  refine hstep ops [] ⟨by simp, ?_⟩
  intro t
  simp [count_devices_by_type]

/-- With valid inputs and an existing id, `register_device` takes the
heartbeat branch, and the id's record is rewritten in place exactly as
lines 105-118 of `device_registry.py` do. -/
theorem register_device_heartbeat {s : RegistryState} {id t ip : String}
    {p now : Int} {r : DeviceRec} (hid : id ≠ "")
    (hfound : s.lookup id = some r)
    (ht : validate_device_type t = true)
    (hip : validate_ip_address ip = true)
    (hp : validate_port p = true) :
    register_device s id t ip p now = .ok (s.map (heartbeat_update id ip p now)) ∧
    (s.map (heartbeat_update id ip p now)).lookup id =
      some { r with
        ip_address := ip
        port := p
        last_seen := now
        status := DEVICE_STATUS_ACTIVE
        failure_count := 0 } := by
  constructor
  · rw [register_device, if_neg hid, if_neg (by simp [ht]), if_neg (by simp [hip]),
      if_neg (by simp [hp]), hfound]
  · rw [lookup_map_on_key (heartbeat_update id ip p now)
      (heartbeat_update_fst id ip p now) id r s hfound]
    simp [heartbeat_update]

/-- A record past only the inactivity threshold survives the sweep with
its status rewritten to inactive and nothing else changed. -/
theorem cleanup_lookup_marked (id : String) (r : DeviceRec) (now : Int) :
    ∀ s : RegistryState, s.lookup id = some r →
      should_remove_device r.last_seen now = false →
      is_device_inactive r.last_seen now = true →
      ((s.map (mark_inactive now)).filter
        (fun p => !should_remove_device p.2.last_seen now)).lookup id =
      some { r with status := DEVICE_STATUS_INACTIVE } := by
  intro s
  induction s with
  | nil => intro h _ _; exact absurd h (by simp)
  | cons q tl ih =>
    intro h hrem hin
    rcases q with ⟨a, b⟩
    rw [lookup_cons_eq] at h
    by_cases hab : id = a
    · rw [if_pos hab] at h
      have hb : b = r := by simpa using h
      subst hb
      simp only [List.map_cons, List.filter_cons]
      have hm : mark_inactive now (a, b) =
          (a, { b with status := DEVICE_STATUS_INACTIVE }) := by
        unfold mark_inactive
        rw [if_neg (by simp [hrem]), if_pos (by simp [hin])]
      rw [hm]
      have hcond : (!should_remove_device
          ({ b with status := DEVICE_STATUS_INACTIVE } : DeviceRec).last_seen now) =
          true := by
        simp [hrem]
      rw [if_pos hcond, lookup_cons_eq, if_pos hab]
    · rw [if_neg hab] at h
      simp only [List.map_cons, List.filter_cons]
      rcases hm : mark_inactive now (a, b) with ⟨a2, b2⟩
      have ha2 : a2 = a := by
        have := mark_inactive_fst now (a, b)
        rw [hm] at this
        exact this
      rw [ha2]
      split
      · rw [lookup_cons_eq, if_neg hab]
        exact ih h hrem hin
      · exact ih h hrem hin

/-- A record past the removal threshold is gone from the dict after the
sweep (under the dict's key-uniqueness). -/
theorem cleanup_lookup_removed_none (id : String) (r : DeviceRec) (now : Int) :
    ∀ s : RegistryState, (s.map Prod.fst).Nodup → s.lookup id = some r →
      should_remove_device r.last_seen now = true →
      ((s.map (mark_inactive now)).filter
        (fun p => !should_remove_device p.2.last_seen now)).lookup id = none := by
  intro s
  induction s with
  | nil => intro _ h _; exact absurd h (by simp)
  | cons q tl ih =>
    intro hnd h hrem
    rcases q with ⟨a, b⟩
    simp only [List.map_cons, List.nodup_cons] at hnd
    rw [lookup_cons_eq] at h
    by_cases hab : id = a
    · rw [if_pos hab] at h
      have hb : b = r := by simpa using h
      subst hb
      simp only [List.map_cons, List.filter_cons]
      have hm : mark_inactive now (a, b) = (a, b) := by
        unfold mark_inactive
        rw [if_pos (by simp [hrem])]
      rw [hm]
      have hcond : (!should_remove_device b.last_seen now) = false := by simp [hrem]
      rw [if_neg (by simp [hcond])]
      apply lookup_eq_none_of_not_mem
      intro hmem
      have hsub : List.Sublist
          (((tl.map (mark_inactive now)).filter
            (fun p => !should_remove_device p.2.last_seen now)).map Prod.fst)
          ((tl.map (mark_inactive now)).map Prod.fst) :=
        (List.filter_sublist _).map _
      have h2 := hsub.subset hmem
      rw [keys_map_of_fst _ (mark_inactive_fst now)] at h2
      subst hab
      exact hnd.1 h2
    · rw [if_neg hab] at h
      simp only [List.map_cons, List.filter_cons]
      rcases hm : mark_inactive now (a, b) with ⟨a2, b2⟩
      have ha2 : a2 = a := by
        have := mark_inactive_fst now (a, b)
        rw [hm] at this
        exact this
      rw [ha2]
      split
      · rw [lookup_cons_eq, if_neg hab]
        exact ih hnd.2 h hrem
      · exact ih hnd.2 h hrem

/-! ### Sample records used by the concrete witnesses -/

/-- A registered rear-camera record as `register_device` would create
it at time 0 from `10.0.0.5:9001`. -/
def sampleRec : DeviceRec :=
  { device_type := "rear-camera"
    ip_address := "10.0.0.5"
    port := 9001
    status := "active"
    created_at := 0
    last_seen := 0
    failure_count := 0 }

/-- A one-device registry holding `sampleRec` under id `cam-1`. -/
def sampleState : RegistryState := [("cam-1", sampleRec)]

/-- A record with some history (non-zero `created_at` and
`failure_count`, stale status), to make frame conditions visible. -/
def agedRec : DeviceRec :=
  { device_type := "rear-camera"
    ip_address := "10.0.0.5"
    port := 9001
    status := "inactive"
    created_at := 7
    last_seen := 10
    failure_count := 5 }

/-- A one-device registry holding `agedRec` under id `cam-1`. -/
def agedState : RegistryState := [("cam-1", agedRec)]

/-! ### The claims -/

/-- C1.  The spec says a registration for an existing id arriving from a
different source address fails with `IdentityConflict`, leaving the
record untouched.  `DeviceRegistry.register_device` performs no source
address comparison at all: with `cam-1` on file at `10.0.0.5`, a
registration for `cam-1` carrying the different address `10.0.0.9`
succeeds and silently overwrites the stored address (the rejection the
spec describes exists only in the legacy draft
`src/main-controller/app.py`, which returns 400 when
`device.addr != request.remote_addr`). -/
theorem register_device_accepts_conflicting_address :
    register_device sampleState "cam-1" "rear-camera" "10.0.0.9" 9001 100 =
      .ok [("cam-1",
        { device_type := "rear-camera"
          ip_address := "10.0.0.9"
          port := 9001
          status := "active"
          created_at := 0
          last_seen := 100
          failure_count := 0 })] := by
  rfl

/-- C2.  Starting from the empty registry, every state reachable by any
sequence of register, remove and cleanup operations has pairwise
distinct device ids and, for every device type, at most `limit(type)`
records of that type — in particular at most one rear-camera record. -/
theorem runOps_unique_ids_and_capacity (ops : List RegOp) :
    ((runOps ops).map Prod.fst).Nodup ∧
    (∀ t, count_devices_by_type (runOps ops) t ≤ limitOf t) ∧
    count_devices_by_type (runOps ops) DEVICE_TYPE_REAR_CAMERA ≤ 1 := by
  obtain ⟨h1, h2⟩ := regInv_runOps ops
  refine ⟨h1, h2, ?_⟩
  have hone : limitOf DEVICE_TYPE_REAR_CAMERA = 1 := rfl
  rw [← hone]
  exact h2 _

/-- C3.  Registering a previously-unknown id with valid inputs of a
type already at its configured limit raises
`DeviceTypeLimitExceededError` and leaves the registry exactly as it
was. -/
theorem register_device_capacity_exceeded
    (s : RegistryState) (id t ip : String) (p now : Int)
    (hid : id ≠ "") (hnew : s.lookup id = none)
    (ht : validate_device_type t = true)
    (hip : validate_ip_address ip = true)
    (hp : validate_port p = true)
    (hcap : count_devices_by_type s t = limitOf t) :
    register_device s id t ip p now = .error .deviceTypeLimitExceeded ∧
    applyOp s (.register id t ip p now) = s := by
  have hreg : register_device s id t ip p now = .error .deviceTypeLimitExceeded := by
    rw [register_device, if_neg hid, if_neg (by simp [ht]), if_neg (by simp [hip]),
      if_neg (by simp [hp]), hnew]
    simp [can_register_device_type, hcap]
  exact ⟨hreg, by simp [applyOp, hreg]⟩

/-- Witness for C3: with the single rear-camera slot taken by `cam-1`,
registering the fresh id `cam-2` fails with the capacity error. -/
theorem register_device_capacity_exceeded_witness :
    count_devices_by_type sampleState "rear-camera" = limitOf "rear-camera" ∧
    register_device sampleState "cam-2" "rear-camera" "10.0.0.9" 9002 50 =
      .error .deviceTypeLimitExceeded ∧
    applyOp sampleState (.register "cam-2" "rear-camera" "10.0.0.9" 9002 50) =
      sampleState :=
  ⟨by decide,
    (register_device_capacity_exceeded sampleState "cam-2" "rear-camera" "10.0.0.9"
      9002 50 (by decide) (by decide) (by decide) (by decide) (by decide)
      (by decide)).1,
    (register_device_capacity_exceeded sampleState "cam-2" "rear-camera" "10.0.0.9"
      9002 50 (by decide) (by decide) (by decide) (by decide) (by decide)
      (by decide)).2⟩

/-- C4.  A successful registration/heartbeat for an existing id from
the same source address as the one on file sets `last_seen` to the
current time, resets `failure_count` to 0, sets the status to active,
rewrites the stored endpoint, and leaves `created_at` unchanged. -/
theorem heartbeat_same_address_refresh
    (s : RegistryState) (id t : String) (p now : Int) (r : DeviceRec)
    (hid : id ≠ "") (hfound : s.lookup id = some r)
    (ht : validate_device_type t = true)
    (hip : validate_ip_address r.ip_address = true)
    (hp : validate_port p = true) :
    ∃ s', register_device s id t r.ip_address p now = .ok s' ∧
      ∃ r', s'.lookup id = some r' ∧
        r'.last_seen = now ∧ r'.failure_count = 0 ∧
        r'.status = DEVICE_STATUS_ACTIVE ∧
        r'.ip_address = r.ip_address ∧ r'.port = p ∧
        r'.created_at = r.created_at := by
  obtain ⟨h1, h2⟩ := register_device_heartbeat hid hfound ht hip hp
  exact ⟨_, h1, _, h2, rfl, rfl, rfl, rfl, rfl, rfl⟩

/-- Witness for C4: a heartbeat for the aged `cam-1` record from its
stored address refreshes it but keeps `created_at = 7`. -/
theorem heartbeat_same_address_refresh_witness :
    ∃ s', register_device agedState "cam-1" "rear-camera" "10.0.0.5" 9002 200 =
        .ok s' ∧
      ∃ r', s'.lookup "cam-1" = some r' ∧
        r'.last_seen = 200 ∧ r'.failure_count = 0 ∧
        r'.status = DEVICE_STATUS_ACTIVE ∧
        r'.ip_address = "10.0.0.5" ∧ r'.port = 9002 ∧
        r'.created_at = 7 :=
  heartbeat_same_address_refresh agedState "cam-1" "rear-camera" 9002 200 agedRec
    (by decide) (by decide) (by decide) (by decide) (by decide)

/-- C5.  One sweep at time `now` marks a record inactive (keeping it,
with only the status rewritten) when `now - last_seen` exceeds the
120-second threshold but not the 300-second one, and removes the record
(its id in the returned list, its key gone from the dict) when
`now - last_seen` exceeds the 300-second threshold. -/
theorem cleanup_marks_then_removes
    (s : RegistryState) (id : String) (r : DeviceRec) (now : Int)
    (hnodup : (s.map Prod.fst).Nodup) (hfound : s.lookup id = some r) :
    (DEVICE_INACTIVE_THRESHOLD < now - r.last_seen →
      now - r.last_seen ≤ DEVICE_REMOVAL_THRESHOLD →
      (cleanup_inactive_devices s now).2.lookup id =
        some { r with status := DEVICE_STATUS_INACTIVE }) ∧
    (DEVICE_REMOVAL_THRESHOLD < now - r.last_seen →
      id ∈ (cleanup_inactive_devices s now).1 ∧
      (cleanup_inactive_devices s now).2.lookup id = none) := by
  constructor
  · intro h1 h2
    have hrem : should_remove_device r.last_seen now = false := by
      simp [should_remove_device]
      omega
    have hin : is_device_inactive r.last_seen now = true := by
      simp [is_device_inactive]
      omega
    simpa [cleanup_inactive_devices] using
      cleanup_lookup_marked id r now s hfound hrem hin
  · intro h1
    have hrem : should_remove_device r.last_seen now = true := by
      simp [should_remove_device]
      omega
    constructor
    · have hmem : (id, r) ∈ s.filter
          (fun p => should_remove_device p.2.last_seen now) :=
        List.mem_filter.mpr ⟨mem_of_lookup_eq_some hfound, hrem⟩
      simpa [cleanup_inactive_devices] using List.mem_map_of_mem Prod.fst hmem
    · simpa [cleanup_inactive_devices] using
        cleanup_lookup_removed_none id r now s hnodup hfound hrem

/-- Witness for C5: with `last_seen = 0`, a sweep at `now = 121` leaves
`cam-1` marked inactive, and a sweep at `now = 301` removes it. -/
theorem cleanup_marks_then_removes_witness :
    ((cleanup_inactive_devices sampleState 121).2.lookup "cam-1" =
      some { sampleRec with status := DEVICE_STATUS_INACTIVE }) ∧
    ("cam-1" ∈ (cleanup_inactive_devices sampleState 301).1 ∧
      (cleanup_inactive_devices sampleState 301).2.lookup "cam-1" = none) :=
  ⟨(cleanup_marks_then_removes sampleState "cam-1" sampleRec 121
      (by decide) (by decide)).1 (by decide) (by decide),
    (cleanup_marks_then_removes sampleState "cam-1" sampleRec 301
      (by decide) (by decide)).2 (by decide)⟩

/-- C6.  Running the sweep twice at the same instant, with no mutation
in between, removes nothing the second time: the second removed-id list
is empty. -/
theorem cleanup_twice_removes_nothing (s : RegistryState) (now : Int) :
    (cleanup_inactive_devices (cleanup_inactive_devices s now).2 now).1 = [] := by
  simp only [cleanup_inactive_devices]
  rw [List.filter_filter]
  simp

/-- C7.  Dispatching a command to a device whose record is inactive
fails with the not-active rejection, issues no transport call, and
leaves the registry (in particular every `failure_count`) unchanged —
for every transport oracle. -/
theorem dispatch_inactive_rejected
    (s : RegistryState) (id cmd : String) (d : DeviceRec)
    (transport : TransportCall → Option Int)
    (hfound : s.lookup id = some d)
    (hst : d.status = DEVICE_STATUS_INACTIVE) :
    control_device s id cmd transport = (.notActive d.status, [], s) := by
  have hne : d.status ≠ DEVICE_STATUS_ACTIVE := by
    rw [hst]
    decide
  simp [control_device, hfound, hne]

/-- Witness for C7: a command to the inactive `cam-1` is rejected even
when the transport oracle would answer 200. -/
theorem dispatch_inactive_rejected_witness :
    control_device agedState "cam-1" "up" (fun _ => some 200) =
      (.notActive "inactive", [], agedState) :=
  dispatch_inactive_rejected agedState "cam-1" "up" agedRec (fun _ => some 200)
    (by decide) (by decide)

/-- C8.  A registration call with an empty id, an unrecognized device
type, or a port outside 1..65535 fails with a validation-class error
(`DeviceRegistrationError` / `InvalidDeviceTypeError`, the 400 family)
and leaves the registry unchanged. -/
theorem register_device_validation_rejects
    (s : RegistryState) (id t ip : String) (p now : Int)
    (h : id = "" ∨ validate_device_type t = false ∨ validate_port p = false) :
    (∃ e, register_device s id t ip p now = .error e ∧
      e.isValidationClass = true) ∧
    applyOp s (.register id t ip p now) = s := by
  have hmain : ∃ e, register_device s id t ip p now = .error e ∧
      e.isValidationClass = true := by
    rw [register_device]
    by_cases h1 : id = ""
    · rw [if_pos h1]
      exact ⟨_, rfl, rfl⟩
    · rw [if_neg h1]
      by_cases h2 : validate_device_type t = true
      · rw [if_neg (by simp [h2])]
        by_cases h3 : validate_ip_address ip = true
        · rw [if_neg (by simp [h3])]
          have h4 : validate_port p = false := by
            rcases h with h | h | h
            · exact absurd h h1
            · simp [h] at h2
            · exact h
          rw [if_pos (by simp [h4])]
          exact ⟨_, rfl, rfl⟩
        · rw [if_pos (by simpa using h3)]
          exact ⟨_, rfl, rfl⟩
      · rw [if_pos (by simpa using h2)]
        exact ⟨_, rfl, rfl⟩
  refine ⟨hmain, ?_⟩
  obtain ⟨e, he, _⟩ := hmain
  simp [applyOp, he]

/-- Witness for C8: the empty id is rejected as a validation error and
the registry is untouched. -/
theorem register_device_validation_rejects_witness :
    (∃ e, register_device sampleState "" "rear-camera" "10.0.0.9" 9001 50 =
        .error e ∧ e.isValidationClass = true) ∧
    applyOp sampleState (.register "" "rear-camera" "10.0.0.9" 9001 50) =
      sampleState :=
  register_device_validation_rejects sampleState "" "rear-camera" "10.0.0.9" 9001 50
    (Or.inl rfl)

/-- C9.  `increment_failure_count` returns `-1` and changes nothing
when the id is unknown; when the id is on file it bumps exactly that
record's `failure_count` by one, returns the new value, and every other
key still looks up to what it did before. -/
theorem increment_failure_count_correct (s : RegistryState) (device_id : String) :
    (s.lookup device_id = none → increment_failure_count s device_id = (-1, s)) ∧
    (∀ r, s.lookup device_id = some r →
      (increment_failure_count s device_id).1 = r.failure_count + 1 ∧
      (increment_failure_count s device_id).2.lookup device_id =
        some { r with failure_count := r.failure_count + 1 } ∧
      (∀ id', id' ≠ device_id →
        (increment_failure_count s device_id).2.lookup id' = s.lookup id')) := by
  constructor
  · intro h
    rw [increment_failure_count, h]
  · intro r h
    have hinc : increment_failure_count s device_id =
        (r.failure_count + 1, s.map (failure_update device_id)) := by
      rw [increment_failure_count, h]
    rw [hinc]
    refine ⟨rfl, ?_, ?_⟩
    · show (s.map (failure_update device_id)).lookup device_id =
        some { r with failure_count := r.failure_count + 1 }
      rw [lookup_map_on_key (failure_update device_id)
        (failure_update_fst device_id) device_id r s h]
      simp [failure_update]
    · intro id' hne
      show (s.map (failure_update device_id)).lookup id' = s.lookup id'
      exact lookup_map_of_keep (failure_update device_id)
        (failure_update_fst device_id) id'
        (fun q hq => by simp [failure_update, hq, hne]) s

/-- Witness for C9: bumping `cam-1` yields count 1 with the other id
unaffected; an unknown id yields `-1` and the same state. -/
theorem increment_failure_count_correct_witness :
    (increment_failure_count sampleState "cam-1").1 = sampleRec.failure_count + 1 ∧
    increment_failure_count sampleState "ghost" = (-1, sampleState) :=
  ⟨((increment_failure_count_correct sampleState "cam-1").2 sampleRec
      (by decide)).1,
    (increment_failure_count_correct sampleState "ghost").1 (by decide)⟩

/-- C10.  A successful heartbeat for an existing id — even one carrying
a (valid) device type — never rewrites the stored `device_type`: the
update branch does not write that field. -/
theorem heartbeat_preserves_device_type
    (s : RegistryState) (id t2 ip : String) (p now : Int) (r : DeviceRec)
    (hid : id ≠ "") (hfound : s.lookup id = some r)
    (ht : validate_device_type t2 = true)
    (hip : validate_ip_address ip = true)
    (hp : validate_port p = true) :
    ∃ s', register_device s id t2 ip p now = .ok s' ∧
      ∃ r', s'.lookup id = some r' ∧ r'.device_type = r.device_type := by
  obtain ⟨h1, h2⟩ := register_device_heartbeat hid hfound ht hip hp
  exact ⟨_, h1, _, h2, rfl⟩

/-- Witness for C10: a heartbeat for `cam-1` leaves its stored type
`rear-camera` in place. -/
theorem heartbeat_preserves_device_type_witness :
    ∃ s', register_device sampleState "cam-1" "rear-camera" "10.0.0.9" 9002 60 =
        .ok s' ∧
      ∃ r', s'.lookup "cam-1" = some r' ∧
        r'.device_type = sampleRec.device_type :=
  heartbeat_preserves_device_type sampleState "cam-1" "rear-camera" "10.0.0.9"
    9002 60 sampleRec (by decide) (by decide) (by decide) (by decide) (by decide)

end Camper
